import Mathlib

/-!
Shallow embedding of the goteway API gateway's request-dispatch and
middleware pipeline (packages `gateway`, `middleware`, `plugin` of the
repository), together with theorems settling the specification claims.

Modelling conventions:
* Go (byte) strings are modelled as `List Char`, each `Char` standing for
  one byte (all inputs of interest are ASCII / Latin-1, where this is
  exact; `base64` decoding produces byte values `< 256`, mapped through
  `Char.ofNat`).
* An `http.Handler` is a state transformer: it receives the request and
  the current observable state (response under construction, the rate
  limiter's client map, the trace of proxy invocations, the lines written
  to the logging port) and returns the new state.
* `time.Now()` is modelled by a `now : Int` field on the request: the
  instant the handling task observes while serving that request.
* The reverse-proxy transport (`httputil.ReverseProxy`) is the opaque
  forwarding capability of the spec: it is modelled as recording the
  invocation in the trace together with the path of the forwarded request.
* Wall-clock durations in log lines are not modelled (side effect only).
-/

/-- Go byte strings, one `Char` per byte. -/
abbrev Str := List Char

/-- Turn an ASCII Lean string literal into a Go byte string. -/
def str (s : String) : Str := s.toList

/-- Go map read (`m[k]`), modelled on an association list: first binding wins. -/
def lookupA {β : Type} : List (Str × β) → Str → Option β
  | [], _ => none
  | (k, v) :: rest, key => if key = k then some v else lookupA rest key

/-- Go map write (`m[k] = v`): replace the binding if present, else add it. -/
def assocSet {β : Type} : List (Str × β) → Str → β → List (Str × β)
  | [], k, v => [(k, v)]
  | (k', v') :: rest, k, v =>
      if k = k' then (k, v) :: rest else (k', v') :: assocSet rest k v

/-- `http.Header.Get`: the header's value, or the empty string when absent. -/
def headerGet (hs : List (Str × Str)) (k : Str) : Str := (lookupA hs k).getD []

/-- An inbound HTTP request (`*http.Request`), with the clock instant `now`
observed by the handling task. -/
structure Request where
  method : Str
  path : Str
  headers : List (Str × Str)
  remoteAddr : Str
  host : Str
  urlHost : Str
  urlScheme : Str
  now : Int
deriving Repr, DecidableEq

/-- The response under construction behind an `http.ResponseWriter`:
Go ignores every `WriteHeader` after the first, hence `status : Option`. -/
structure Response where
  status : Option Nat
  headers : List (Str × Str)
  body : Str
deriving Repr, DecidableEq

/-- A line written to the logging port. -/
inductive LogEvent where
  | info (msg : Str)
  | warn (msg : Str)
  | error (msg : Str)
  | debugE (msg : Str)
deriving Repr, DecidableEq

/-- The observable state a handler acts on: the response, the rate
limiter's per-client timestamp map (`RateLimiter.clients` of the limiter
instance under study), the trace of proxy-forward events, the log lines,
and the path of the request handed to the proxy capability (if any). -/
structure GState where
  resp : Response
  limClients : List (Str × List Int)
  trace : List Str
  logs : List LogEvent
  forwardedPath : Option Str
deriving Repr, DecidableEq

/-- The state before any handler has acted. -/
def initState : GState :=
  { resp := { status := none, headers := [], body := [] }
    limClients := []
    trace := []
    logs := []
    forwardedPath := none }

/-- `http.Handler`: transforms the observable state, given a request. -/
abbrev Handler := Request → GState → GState

/-- `middleware.Middleware` (middleware.go): `func(http.Handler) http.Handler`. -/
abbrev Middleware := Handler → Handler

def logInfo (st : GState) (m : Str) : GState := { st with logs := st.logs ++ [.info m] }
def logWarn (st : GState) (m : Str) : GState := { st with logs := st.logs ++ [.warn m] }
def logError (st : GState) (m : Str) : GState := { st with logs := st.logs ++ [.error m] }
def logDebug (st : GState) (m : Str) : GState := { st with logs := st.logs ++ [.debugE m] }

/-- `http.Header.Set` on the response: replaces any existing value. -/
def setRespHeader (st : GState) (k v : Str) : GState :=
  { st with resp := { st.resp with headers := assocSet st.resp.headers k v } }

/-- `http.ResponseWriter.WriteHeader`: only the first call takes effect. -/
def writeHeader (st : GState) (code : Nat) : GState :=
  if st.resp.status.isSome then st
  else { st with resp := { st.resp with status := some code } }

/-- `http.Error(w, msg, code)`: sets the plain-text headers, writes the
status code, then writes `msg` and a newline to the body. -/
def httpError (st : GState) (msg : Str) (code : Nat) : GState :=
  let st := setRespHeader st (str "Content-Type") (str "text/plain; charset=utf-8")
  let st := setRespHeader st (str "X-Content-Type-Options") (str "nosniff")
  let st := writeHeader st code
  { st with resp := { st.resp with body := st.resp.body ++ msg ++ [Char.ofNat 10] } }

/-- Decimal rendering of a status code for log lines. -/
def natStr (n : Nat) : Str := (Nat.repr n).toList

/-! ## Built-in middleware: logging (logging.go) -/

/-- `middleware.LoggingMiddleware`: runs the wrapped handler, then logs
client identity, method, path and the captured status code (the custom
`responseWriter` defaults to `200` when the handler never writes one).
The elapsed duration is a pure wall-clock side effect and is elided. -/
def LoggingMiddleware : Middleware := fun next => fun r st =>
  let st' := next r st
  let code := st'.resp.status.getD 200
  logInfo st' (r.remoteAddr ++ str " " ++ r.method ++ str " " ++ r.path
    ++ str " " ++ natStr code)

/-! ## Built-in middleware: rate limiting (ratelimit.go, `src/unnamed/part_002`) -/

/-- The immutable part of `middleware.RateLimiter` (`limit`, `window`);
its mutable `clients` map lives in `GState.limClients`. -/
structure RateLimiter where
  limit : Int
  window : Int
deriving Repr, DecidableEq

/-- `middleware.RateLimitMiddleware`: prune the client's timestamps to
those within the window, reject with `429` when the pruned count has
reached the limit (leaving the stored map untouched), otherwise store
back the pruned list with `now` appended and call the wrapped handler. -/
def RateLimitMiddleware (limiter : RateLimiter) : Middleware := fun next => fun r st =>
  let clientIP := r.remoteAddr
  let requests := ((lookupA st.limClients clientIP).getD []).filter
    (fun t => r.now - t ≤ limiter.window)
  if limiter.limit ≤ (requests.length : Int) then
    let st := logWarn st (str "Rate limit exceeded for " ++ clientIP)
    httpError st (str "Rate limit exceeded") 429
  else
    let st := { st with
      limClients := assocSet st.limClients clientIP (requests ++ [r.now]) }
    next r st

/-! ## Base64 (Go `encoding/base64` standard padded encoding)

`base64.StdEncoding.DecodeString`: the value of one alphabet character,
quantum-by-quantum decoding with mandatory `=` padding at the very end of
the input, newline characters ignored, trailing bits not checked (the
non-strict decoder). -/

/-- The value of a standard-alphabet base64 character, `none` otherwise. -/
def b64Val (c : Char) : Option Nat :=
  if 'A' ≤ c ∧ c ≤ 'Z' then some (c.toNat - 'A'.toNat)
  else if 'a' ≤ c ∧ c ≤ 'z' then some (c.toNat - 'a'.toNat + 26)
  else if '0' ≤ c ∧ c ≤ '9' then some (c.toNat - '0'.toNat + 52)
  else if c = '+' then some 62
  else if c = '/' then some 63
  else none

/-- Decode the 4-character quantums of a base64 input (newlines already
removed): padding may only occur in the last quantum, the input length
must be a multiple of 4, and decoded bytes are emitted as `Char`s. -/
def b64Quantums : List Char → Option (List Char)
  | [] => some []
  | c1 :: c2 :: c3 :: c4 :: rest =>
    match b64Val c1, b64Val c2 with
    | some v1, some v2 =>
      if c3 = '=' then
        if c4 = '=' ∧ rest = [] then
          some [Char.ofNat (v1 * 4 + v2 / 16)]
        else none
      else
        match b64Val c3 with
        | some v3 =>
          if c4 = '=' then
            if rest = [] then
              some [Char.ofNat (v1 * 4 + v2 / 16), Char.ofNat (v2 % 16 * 16 + v3 / 4)]
            else none
          else
            match b64Val c4 with
            | some v4 =>
              (b64Quantums rest).map (fun tail =>
                Char.ofNat (v1 * 4 + v2 / 16) :: Char.ofNat (v2 % 16 * 16 + v3 / 4)
                  :: Char.ofNat (v3 % 4 * 64 + v4) :: tail)
            | none => none
        | none => none
    | _, _ => none
  | _ => none

/-- `base64.StdEncoding.DecodeString`: skip newline characters, then
decode the quantums. -/
def base64Decode (s : Str) : Option Str :=
  b64Quantums (s.filter (fun c => ¬ (c = Char.ofNat 10 ∨ c = Char.ofNat 13)))

/-! ## Authenticators (auth.go) -/

/-- `strings.SplitN(s, sep, 2)` for a one-character separator: split at
the first occurrence only; a list of length 1 when `sep` does not occur. -/
def splitN2 (s : Str) (sep : Char) : List Str :=
  match s.findIdx? (fun c => c = sep) with
  | none => [s]
  | some i => [s.take i, s.drop (i + 1)]

/-- The `"Basic "` scheme marker of the `Authorization` header. -/
def basicTag : Str := str "Basic "

/-- `middleware.BasicAuthenticator`: configured username and password. -/
structure BasicAuthenticator where
  username : Str
  password : Str
deriving Repr, DecidableEq

/-- `BasicAuthenticator.Authenticate`: read the `Authorization` header,
require the `"Basic "` scheme, base64-decode the remainder, split the
payload at the first colon, and compare both fields exactly. Every
failure path returns `false` (the function is total: it cannot crash). -/
def BasicAuthenticator.Authenticate (a : BasicAuthenticator) (r : Request) : Bool :=
  let auth := headerGet r.headers (str "Authorization")
  if auth = [] then false
  else if ¬ (basicTag.isPrefixOf auth) then false
  else
    match base64Decode (auth.drop basicTag.length) with
    | none => false
    | some payload =>
      match splitN2 payload ':' with
      | [u, p] => u = a.username ∧ p = a.password
      | _ => false

/-- `middleware.APIKeyAuthenticator`: configured header name and key. -/
structure APIKeyAuthenticator where
  header : Str
  key : Str
deriving Repr, DecidableEq

/-- `APIKeyAuthenticator.Authenticate`: the configured header's value
(empty when the header is absent) must equal the configured key. -/
def APIKeyAuthenticator.Authenticate (a : APIKeyAuthenticator) (r : Request) : Bool :=
  headerGet r.headers a.header = a.key

/-- The `middleware.Authenticator` interface with its two implementations. -/
inductive Authenticator where
  | basic (a : BasicAuthenticator)
  | apikey (a : APIKeyAuthenticator)
deriving Repr, DecidableEq

/-- Dynamic dispatch of `Authenticator.Authenticate`. -/
def Authenticator.Authenticate : Authenticator → Request → Bool
  | .basic a, r => a.Authenticate r
  | .apikey a, r => a.Authenticate r

/-- `middleware.AuthMiddleware`: on failure log a warning, answer
`401 Unauthorized` and do not call the wrapped handler; on success call
the wrapped handler. -/
def AuthMiddleware (authenticator : Authenticator) : Middleware := fun next => fun r st =>
  if ¬ (authenticator.Authenticate r) then
    let st := logWarn st (str "Authentication failed for " ++ r.remoteAddr)
    httpError st (str "Unauthorized") 401
  else next r st

/-! ## Middleware chain (middleware.go) -/

/-- `middleware.Chain`: wrap the terminal handler in reverse iteration
order (index `len-1` down to `0`), so the first-listed middleware is
outermost. -/
def Chain (middlewares : List Middleware) : Middleware := fun next =>
  middlewares.foldr (fun m acc => m acc) next

/-- `middleware.Apply`: apply one middleware to a handler. -/
def Apply (h : Handler) (m : Middleware) : Handler := m h

/-! ## Plugins (plugin.go, cors.go in `src/unnamed/part_000`) -/

/-- The `plugin.Plugin` interface, embedded as a record of its request-time
capabilities: its name and its `ProcessRequest(w, r, next)` step (the
`Initialize` capability only mutates private plugin configuration before
the serving phase and is not needed by any claim). -/
structure Plugin where
  name : Str
  process : Handler → Handler

/-- `plugin.Manager`: the registry mapping plugin name to plugin. -/
structure Manager where
  plugins : List (Str × Plugin)

/-- `Manager.GetPlugin`: resolve a plugin by name. -/
def Manager.GetPlugin (m : Manager) (name : Str) : Option Plugin :=
  lookupA m.plugins name

/-- `Manager.RegisterPlugin`: store the plugin under its name and log. -/
def Manager.RegisterPlugin (m : Manager) (p : Plugin) : Manager :=
  { m with plugins := assocSet m.plugins p.name p }

/-- `Manager.Middleware`: adapt the named plugin into a middleware step.
The plugin is resolved at request time; when absent, log an error and
fall through to the wrapped handler directly (fail open). -/
def Manager.Middleware (m : Manager) (pluginName : Str) : Middleware := fun next => fun r st =>
  match m.GetPlugin pluginName with
  | none => next r (logError st (str "Plugin not found: " ++ pluginName))
  | some p => p.process next r st

/-- `plugin.CORSPlugin`: allowed origins, methods and headers. -/
structure CORSPlugin where
  allowedOrigins : List Str
  allowedMethods : List Str
  allowedHeaders : List Str
deriving Repr, DecidableEq

/-- `CORSPlugin.ProcessRequest`: pass through when no `Origin` header is
present; when the origin is not allowed (exact match or `*`), log a
warning and pass through without setting CORS headers; when allowed, set
the three CORS response headers, answer `200` to `OPTIONS` without
calling the wrapped handler, and otherwise continue to it. -/
def CORSPlugin.ProcessRequest (p : CORSPlugin) (next : Handler) : Handler := fun r st =>
  let origin := headerGet r.headers (str "Origin")
  if origin = [] then next r st
  else
    let allowed := p.allowedOrigins.any (fun a => a = str "*" ∨ a = origin)
    if ¬ allowed then
      next r (logWarn st (str "CORS: Origin not allowed: " ++ origin))
    else
      let st := setRespHeader st (str "Access-Control-Allow-Origin") origin
      let st := setRespHeader st (str "Access-Control-Allow-Methods")
        (List.intercalate (str ", ") p.allowedMethods)
      let st := setRespHeader st (str "Access-Control-Allow-Headers")
        (List.intercalate (str ", ") p.allowedHeaders)
      if r.method = str "OPTIONS" then writeHeader st 200
      else next r st

/-! ## Gateway route construction (gateway.go in `src/unnamed/part_003`) -/

/-- `config.RateLimitConfig`: limit and window (in seconds). -/
structure RateLimitConfig where
  limit : Int
  window : Int
deriving Repr, DecidableEq

/-- `config.AuthConfig`: the auth type and its string-keyed config map. -/
structure AuthConfig where
  typ : Str
  config : List (Str × Str)
deriving Repr, DecidableEq

/-- `config.RouteConfig`: one validated route of the configuration. -/
structure RouteConfig where
  path : Str
  target : Str
  methods : List Str
  middlewares : List Str
  rateLimit : Option RateLimitConfig
  auth : Option AuthConfig

/-- A parsed target URL (`net/url.URL`), scheme and host only. -/
structure URL where
  scheme : Str
  host : Str
deriving Repr, DecidableEq

/-- `gateway.Route`: the built route with its composed handler. -/
structure Route where
  path : Str
  target : URL
  methods : List Str
  handler : Handler

/-- The opaque reverse-proxy capability
(`httputil.NewSingleHostReverseProxy(targetURL).ServeHTTP`): forwarding
is recorded in the trace together with the forwarded request's path. -/
def proxyServeHTTP : Handler := fun r st =>
  { st with trace := st.trace ++ [str "proxy"], forwardedPath := some r.path }

/-- `time.Duration(seconds) * time.Second` in nanoseconds. -/
def secondsToDuration (s : Int) : Int := s * 1000000000

/-- The terminal per-route handler built in `Gateway.initialize`
(lines 95–121): reject methods outside the allowed set with `405`
before doing anything else; otherwise rewrite host/scheme to the target,
strip the route-path prefix from the path (an empty result becomes
`"/"`), log, and forward through the proxy capability. -/
def routeHandler (methods : List Str) (targetURL : URL) (routePath : Str) : Handler :=
  fun r st =>
    if ¬ (methods.contains r.method) then
      let st := logWarn st (str "Method not allowed: " ++ r.method ++ str " " ++ r.path)
      httpError st (str "Method not allowed") 405
    else
      let r := { r with urlHost := targetURL.host, urlScheme := targetURL.scheme,
                        host := targetURL.host }
      let r :=
        if routePath.isPrefixOf r.path then
          let p := r.path.drop routePath.length
          { r with path := if p = [] then str "/" else p }
        else r
      let st := logDebug st (str "Proxying request: " ++ r.method ++ str " " ++ r.path)
      proxyServeHTTP r st

/-- The middleware-attachment loop of `Gateway.initialize`
(lines 123–169): iterate over the declared middleware names in order,
each time wrapping the current handler (`handler = m(handler)`, so the
last-declared name ends up outermost). Plugin names take precedence;
`ratelimit` and `auth` are skipped when their config is absent;
an unsupported auth type and an unknown middleware name produce a
warning (returned alongside the handler) and are skipped. -/
def buildStep (m : Manager) (rc : RouteConfig) (acc : Handler × List LogEvent)
    (middlewareName : Str) : Handler × List LogEvent :=
  let handler := acc.1
  let warns := acc.2
  if (m.GetPlugin middlewareName).isSome then
    ((m.Middleware middlewareName) handler, warns)
  else if middlewareName = str "logging" then
    (LoggingMiddleware handler, warns)
  else if middlewareName = str "ratelimit" then
    match rc.rateLimit with
    | some rl =>
      (RateLimitMiddleware ⟨rl.limit, secondsToDuration rl.window⟩ handler, warns)
    | none => (handler, warns)
  else if middlewareName = str "auth" then
    match rc.auth with
    | some ac =>
      if ac.typ = str "basic" then
        (AuthMiddleware (.basic ⟨headerGet ac.config (str "username"),
          headerGet ac.config (str "password")⟩) handler, warns)
      else if ac.typ = str "apikey" then
        (AuthMiddleware (.apikey ⟨headerGet ac.config (str "header"),
          headerGet ac.config (str "key")⟩) handler, warns)
      else
        (handler, warns ++ [.warn (str "Unsupported auth type: " ++ ac.typ)])
    | none => (handler, warns)
  else
    (handler, warns ++ [.warn (str "Unknown middleware: " ++ middlewareName)])

/-- The whole attachment loop: fold `buildStep` over the declared
middleware names in order, starting from the terminal handler. -/
def buildRouteMiddlewares (m : Manager) (rc : RouteConfig) (h0 : Handler) :
    Handler × List LogEvent :=
  rc.middlewares.foldl (buildStep m rc) (h0, [])

/-- `Gateway.initialize`: for each configured route, parse the target URL
(failure aborts initialization with a configuration error — the only
error exit of the function), build the terminal handler, attach the
middleware, and collect the route. `parseURL` is the external `url.Parse`
collaborator. Returns the built routes together with the warnings
emitted while building. -/
def gatewayInit (parseURL : Str → Except Str URL) (m : Manager) :
    List RouteConfig → Except Str (List Route × List LogEvent)
  | [] => .ok ([], [])
  | rc :: rest =>
    match parseURL rc.target with
    | .error e => .error (str "failed to parse target URL: " ++ e)
    | .ok targetURL =>
      let h0 := routeHandler rc.methods targetURL rc.path
      let built := buildRouteMiddlewares m rc h0
      match gatewayInit parseURL m rest with
      | .error e => .error e
      | .ok (rs, ws) =>
        .ok ({ path := rc.path, target := targetURL, methods := rc.methods,
               handler := built.1 } :: rs, built.2 ++ ws)

/-! ## Observation harness

Probe handlers and plugins used to observe execution order and
short-circuiting of the composed chains; they only append to the trace. -/

/-- A probe plugin that records its name in the trace on entry, then
calls the wrapped handler. -/
def tracePlugin (n : Str) : Plugin :=
  { name := n, process := fun next r st => next r { st with trace := st.trace ++ [n] } }

/-- A probe middleware step that records its name on entry. -/
def traceStep (n : Str) : Middleware := fun next => fun r st =>
  next r { st with trace := st.trace ++ [n] }

/-- A probe terminal handler that records `H` in the trace. -/
def termH : Handler := fun _ st => { st with trace := st.trace ++ [str "H"] }

/-- A terminal handler that just answers `200`. -/
def handlerOk : Handler := fun _ st => writeHeader st 200

/-- A sample request. -/
def req0 : Request :=
  { method := str "GET", path := str "/api/users", headers := [],
    remoteAddr := str "1.2.3.4:555", host := str "gw", urlHost := str "gw",
    urlScheme := str "http", now := 0 }

/-- A registry holding three probe plugins `a`, `b`, `c`. -/
def mgr3 : Manager :=
  { plugins := [(str "a", tracePlugin (str "a")), (str "b", tracePlugin (str "b")),
                (str "c", tracePlugin (str "c"))] }

/-- The empty plugin registry. -/
def emptyMgr : Manager := { plugins := [] }

/-- A route declaring the probe plugins `a`, `b`, `c` as its middleware. -/
def rc3 : RouteConfig :=
  { path := str "/api", target := str "http://localhost:3000",
    methods := [str "GET"], middlewares := [str "a", str "b", str "c"],
    rateLimit := none, auth := none }

/-- Run a sequence of requests (given by their clock instants) through
one rate-limit step wrapping `handlerOk`, collecting each request's
response status; the limiter map persists across requests, the response
is fresh for each. -/
def rlScenario (limiter : RateLimiter) (times : List Int) : List (Option Nat) × GState :=
  times.foldl (fun acc t =>
    let st := { acc.2 with resp := { status := none, headers := [], body := [] } }
    let st' := RateLimitMiddleware limiter handlerOk { req0 with now := t } st
    (acc.1 ++ [st'.resp.status], st')) ([], initState)

/-- Run a sequence of requests through one rate-limit step whose wrapped
handler leaves the state unchanged, starting from the empty client map. -/
def runRL (limiter : RateLimiter) (reqs : List Request) : GState :=
  reqs.foldl (fun st r => RateLimitMiddleware limiter (fun _ s => s) r st) initState

/-! ## Helper lemmas -/

theorem lookupA_assocSet {β : Type} (m : List (Str × β)) (k : Str) (v : β) (k' : Str) :
    lookupA (assocSet m k v) k' = if k' = k then some v else lookupA m k' := by
  induction m with
  | nil => simp [assocSet, lookupA]
  | cons kv rest ih =>
    obtain ⟨k₀, v₀⟩ := kv
    by_cases hk : k = k₀
    · subst hk
      by_cases h : k' = k <;> simp [assocSet, lookupA, h]
    · by_cases h : k' = k₀
      · subst h
        have hk' : ¬ k' = k := fun hh => hk hh.symm
        simp [assocSet, lookupA, hk, hk']
      · simp [assocSet, lookupA, hk, h, ih]

theorem limClients_writeHeader (st : GState) (c : Nat) :
    (writeHeader st c).limClients = st.limClients := by
  unfold writeHeader; split <;> rfl

theorem limClients_httpError (st : GState) (m : Str) (c : Nat) :
    (httpError st m c).limClients = st.limClients := by
  simp [httpError, setRespHeader, limClients_writeHeader]

/-! ## Claim C1 — middleware composition order -/

theorem foldl_tracePlugins (m : Manager) (rc : RouteConfig) (names : List Str) :
    ∀ (acc : Handler × List LogEvent) (r : Request) (st : GState),
      (∀ n ∈ names, m.GetPlugin n = some (tracePlugin n)) →
      ((names.foldl (buildStep m rc) acc).1 r st
          = acc.1 r { st with trace := st.trace ++ names.reverse } ∧
        (names.foldl (buildStep m rc) acc).2 = acc.2) := by
  induction names with
  | nil =>
    intro acc r st _
    simp [List.foldl]
  | cons n rest ih =>
    intro acc r st hp
    have hn := hp n (List.mem_cons_self n rest)
    have hrest : ∀ x ∈ rest, m.GetPlugin x = some (tracePlugin x) :=
      fun x hx => hp x (List.mem_cons_of_mem n hx)
    have hstep1 : (buildStep m rc acc n).1 = (m.Middleware n) acc.1 := by
      simp [buildStep, hn]
    have hstep2 : (buildStep m rc acc n).2 = acc.2 := by
      simp [buildStep, hn]
    simp only [List.foldl]
    obtain ⟨ih1, ih2⟩ := ih (buildStep m rc acc n) r st hrest
    refine ⟨?_, by rw [ih2, hstep2]⟩
    rw [ih1, hstep1]
    simp only [Manager.Middleware, hn, tracePlugin]
    simp [List.reverse_cons, List.append_assoc]

theorem chain_traceSteps (names : List Str) :
    ∀ (h0 : Handler) (r : Request) (st : GState),
      Chain (names.map traceStep) h0 r st
        = h0 r { st with trace := st.trace ++ names } := by
  induction names with
  | nil => intro h0 r st; simp [Chain, List.foldr]
  | cons n rest ih =>
    intro h0 r st
    simp only [Chain, List.map, List.foldr] at ih ⊢
    simp only [traceStep]
    rw [ih h0 r { st with trace := st.trace ++ [n] }]
    simp

/-- Claim C1, counterexample: a route declaring the probe middleware
steps `a`, `b`, `c` over terminal handler `H` executes them in the order
`c, b, a, H` — not in the claimed declared order `a, b, c, H` with the
first-listed step outermost. -/
theorem c1_counterexample :
    ((buildRouteMiddlewares mgr3 rc3 termH).1 req0 initState).trace
      = [str "c", str "b", str "a", str "H"] ∧
    ¬ (((buildRouteMiddlewares mgr3 rc3 termH).1 req0 initState).trace
      = [str "a", str "b", str "c", str "H"]) := by
  constructor
  · rfl
  · decide

/-- Claim C1 as amended: route construction wraps in FORWARD iteration
order (`handler = m(handler)` per declared name), so the LAST-declared
step is outermost and steps run in reverse declared order before the
terminal handler; an empty step list yields the terminal handler
unchanged. The standalone `Chain` combinator — not used by route
construction — does wrap in reverse iteration order, putting the
first-listed step outermost. -/
theorem c1_amended_order (m : Manager) (rc : RouteConfig) (names : List Str)
    (h0 : Handler) (r : Request) (st : GState)
    (hmw : rc.middlewares = names)
    (hp : ∀ n ∈ names, m.GetPlugin n = some (tracePlugin n)) :
    ((buildRouteMiddlewares m rc h0).1 r st
        = h0 r { st with trace := st.trace ++ names.reverse }) ∧
    (rc.middlewares = [] → buildRouteMiddlewares m rc h0 = (h0, [])) ∧
    (Chain (names.map traceStep) h0 r st
        = h0 r { st with trace := st.trace ++ names }) := by
  refine ⟨?_, fun hnil => ?_, chain_traceSteps names h0 r st⟩
  · rw [buildRouteMiddlewares, hmw]
    exact (foldl_tracePlugins m rc names (h0, []) r st hp).1
  · rw [buildRouteMiddlewares, hnil]
    rfl

/-- Claim C1, witness: with the probe plugins `a`, `b`, `c` registered,
the route-built chain over terminal `H` runs them in reverse declared
order. -/
theorem c1_witness :
    (rc3.middlewares = [str "a", str "b", str "c"] ∧
      mgr3.GetPlugin (str "a") = some (tracePlugin (str "a")) ∧
      mgr3.GetPlugin (str "b") = some (tracePlugin (str "b")) ∧
      mgr3.GetPlugin (str "c") = some (tracePlugin (str "c"))) ∧
    (buildRouteMiddlewares mgr3 rc3 termH).1 req0 initState
      = termH req0 { initState with
          trace := initState.trace ++ ([str "a", str "b", str "c"]).reverse } :=
  ⟨⟨rfl, rfl, rfl, rfl⟩,
    (c1_amended_order mgr3 rc3 [str "a", str "b", str "c"] termH req0 initState rfl
      (by
        intro n hn
        rcases List.mem_cons.mp hn with h | hn2
        · subst h; rfl
        · rcases List.mem_cons.mp hn2 with h | hn3
          · subst h; rfl
          · rcases List.mem_cons.mp hn3 with h | hn4
            · subst h; rfl
            · exact absurd hn4 (List.not_mem_nil n))).1⟩

/-! ## Claim C2 — unsupported auth type at initialization -/

/-- A `url.Parse` stub that accepts every target (the real parser
accepts ordinary `http://host:port` targets). -/
def stubParse : Str → Except Str URL :=
  fun _ => .ok ⟨str "http", str "localhost:3000"⟩

/-- A route whose auth middleware names the unsupported type `oauth`. -/
def rcBadAuth : RouteConfig :=
  { path := str "/api", target := str "http://localhost:3000",
    methods := [str "GET"], middlewares := [str "auth"],
    rateLimit := none, auth := some ⟨str "oauth", []⟩ }

/-- The warnings collected by a successful initialization. -/
def warnsOf : Except Str (List Route × List LogEvent) → List LogEvent
  | .ok (_, ws) => ws
  | .error _ => []

/-- Claim C2, counterexample: a route configuration whose auth type is
the unsupported `oauth` does NOT make initialization fail — the gateway
initializes successfully, merely logging an `Unsupported auth type`
warning and skipping the auth middleware. -/
theorem c2_counterexample :
    (gatewayInit stubParse emptyMgr [rcBadAuth]).isOk = true ∧
    warnsOf (gatewayInit stubParse emptyMgr [rcBadAuth])
      = [.warn (str "Unsupported auth type: " ++ str "oauth")] :=
  ⟨rfl, rfl⟩

/-- Claim C2 as amended: an unsupported auth type is not a fatal
configuration error. Initialization succeeds whenever every route's
target URL parses (URL parsing is the only error exit), and a route
whose auth middleware names an unsupported type gets the
`Unsupported auth type` warning while the auth middleware is simply not
attached (the handler is left unchanged by that middleware entry). -/
theorem c2_amended (parseURL : Str → Except Str URL) (m : Manager)
    (cfgs : List RouteConfig)
    (hok : ∀ rc ∈ cfgs, (parseURL rc.target).isOk = true) :
    (gatewayInit parseURL m cfgs).isOk = true ∧
    (∀ (rc : RouteConfig) (h0 : Handler) (ac : AuthConfig),
      m.GetPlugin (str "auth") = none →
      rc.middlewares = [str "auth"] →
      rc.auth = some ac →
      ac.typ ≠ str "basic" → ac.typ ≠ str "apikey" →
      buildRouteMiddlewares m rc h0
        = (h0, [.warn (str "Unsupported auth type: " ++ ac.typ)])) := by
  constructor
  · induction cfgs with
    | nil => rfl
    | cons rc rest ih =>
      have hrc := hok rc (List.mem_cons_self rc rest)
      have hrest : ∀ x ∈ rest, (parseURL x.target).isOk = true :=
        fun x hx => hok x (List.mem_cons_of_mem rc hx)
      cases hpu : parseURL rc.target with
      | error e => rw [hpu] at hrc; exact absurd hrc (by simp [Except.isOk, Except.toBool])
      | ok u =>
        have hr := ih hrest
        cases hre : gatewayInit parseURL m rest with
        | error e => rw [hre] at hr; exact absurd hr (by simp [Except.isOk, Except.toBool])
        | ok pair =>
          obtain ⟨rs, ws⟩ := pair
          simp only [gatewayInit]
          rw [hpu, hre]
          rfl
  · intro rc h0 ac hget hmw hauth hb ha
    rw [buildRouteMiddlewares, hmw]
    simp only [List.foldl, buildStep, hget, hauth]
    simp +decide [hb, ha]

/-- Claim C2, witness: with an always-succeeding URL parser, the
configuration containing the `oauth` auth type initializes without
error. -/
theorem c2_witness :
    (∀ rc ∈ [rcBadAuth], (stubParse rc.target).isOk = true) ∧
    (gatewayInit stubParse emptyMgr [rcBadAuth]).isOk = true :=
  ⟨fun _ _ => rfl,
    (c2_amended stubParse emptyMgr [rcBadAuth] (fun _ _ => rfl)).1⟩

/-! ## Claim C3 — sliding-window rate limiting -/

/-- The prune step of the rate-limit middleware (ratelimit.go lines
39–45): the client's stored timestamps that are still within the window
of the request's `now`. -/
def prunedAt (st : GState) (r : Request) (window : Int) : List Int :=
  ((lookupA st.limClients r.remoteAddr).getD []).filter (fun t => r.now - t ≤ window)

/-- Claim C3 (confirmed): on each rate-limit call, the client's stored
timestamps are pruned to those within the window of `now`; when the
pruned count has reached the limit the call answers `429 Too Many
Requests` without invoking the wrapped handler (the result does not
depend on it) and leaves the limiter's stored map unchanged; otherwise
`now` is appended to the pruned sequence, the sequence is stored back,
and the wrapped handler runs. With `limit = 5`, `window = 1s`, five
requests from one identity inside the window are admitted, the sixth is
rejected, and a request after the window has elapsed is admitted again. -/
theorem c3_rate_limit_step (limiter : RateLimiter) (next : Handler) (r : Request)
    (st : GState) :
    (limiter.limit ≤ ((prunedAt st r limiter.window).length : Int) →
      RateLimitMiddleware limiter next r st
        = httpError (logWarn st (str "Rate limit exceeded for " ++ r.remoteAddr))
            (str "Rate limit exceeded") 429 ∧
      (RateLimitMiddleware limiter next r st).limClients = st.limClients) ∧
    (((prunedAt st r limiter.window).length : Int) < limiter.limit →
      RateLimitMiddleware limiter next r st
        = next r { st with
            limClients :=
              assocSet st.limClients r.remoteAddr
                (prunedAt st r limiter.window ++ [r.now]) }) ∧
    (rlScenario ⟨5, secondsToDuration 1⟩ [0, 100, 200, 300, 400, 500, 2000000000]).1
      = [some 200, some 200, some 200, some 200, some 200, some 429, some 200] := by
  simp only [prunedAt]
  refine ⟨fun h => ?_, fun h => ?_, by decide⟩
  · have he : RateLimitMiddleware limiter next r st
        = httpError (logWarn st (str "Rate limit exceeded for " ++ r.remoteAddr))
            (str "Rate limit exceeded") 429 := by
      simp only [RateLimitMiddleware]
      rw [if_pos h]
    refine ⟨he, ?_⟩
    rw [he, limClients_httpError]
    rfl
  · simp only [RateLimitMiddleware]
    rw [if_neg (not_le.mpr h)]

/-- Claim C3, witness: a client whose pruned window already holds one
timestamp is rejected by a limiter with limit 1. -/
theorem c3_witness :
    ((1 : Int) ≤ ((prunedAt (runRL ⟨1, 10⟩ [req0]) req0 (10 : Int)).length : Int)) ∧
    RateLimitMiddleware ⟨1, 10⟩ termH req0 (runRL ⟨1, 10⟩ [req0])
      = httpError (logWarn (runRL ⟨1, 10⟩ [req0])
          (str "Rate limit exceeded for " ++ req0.remoteAddr))
          (str "Rate limit exceeded") 429 :=
  ⟨by decide, ((c3_rate_limit_step ⟨1, 10⟩ termH req0 (runRL ⟨1, 10⟩ [req0])).1
      (by decide)).1⟩

/-! ## Claim C4 — middleware still runs for disallowed methods -/

/-- A `GET`-only route with logging, rate limiting and API-key auth. -/
def c4rc : RouteConfig :=
  { path := str "/api", target := str "http://localhost:3000",
    methods := [str "GET"],
    middlewares := [str "logging", str "ratelimit", str "auth"],
    rateLimit := some ⟨5, 1⟩,
    auth := some ⟨str "apikey",
      [(str "header", str "X-API-Key"), (str "key", str "secret")]⟩ }

/-- The registry used for the C4 witness (no plugins). -/
def c4mgr : Manager := emptyMgr

/-- The parsed target of `c4rc`. -/
def c4url : URL := ⟨str "http", str "localhost:3000"⟩

/-- A `PUT` request carrying the valid API key. -/
def c4req : Request :=
  { req0 with method := str "PUT", headers := [(str "X-API-Key", str "secret")] }

/-- Claim C4 (confirmed): for a route configured with the `logging`,
`ratelimit` and `auth` middleware, a request whose method is outside the
allowed set — but which passes authentication and is under the rate
limit — is answered `405 Method Not Allowed` by the terminal handler,
the proxy step is never invoked (trace and forwarded path unchanged),
and the middleware side effects are observable: the rate limiter has
counted the attempt and the logging middleware has recorded the request
with status 405. -/
theorem c4_method_not_allowed_after_middleware
    (m : Manager) (rc : RouteConfig) (rl : RateLimitConfig) (ac : AuthConfig)
    (u : URL) (r : Request) (st : GState)
    (hpl : m.GetPlugin (str "logging") = none)
    (hpr : m.GetPlugin (str "ratelimit") = none)
    (hpa : m.GetPlugin (str "auth") = none)
    (hmw : rc.middlewares = [str "logging", str "ratelimit", str "auth"])
    (hrl : rc.rateLimit = some rl)
    (hac : rc.auth = some ac)
    (hat : ac.typ = str "apikey")
    (hkey : headerGet r.headers (headerGet ac.config (str "header"))
      = headerGet ac.config (str "key"))
    (hcount : ((prunedAt st r (secondsToDuration rl.window)).length : Int) < rl.limit)
    (hmeth : rc.methods.contains r.method = false)
    (hst : st.resp.status = none) :
    ((buildRouteMiddlewares m rc (routeHandler rc.methods u rc.path)).1 r st).resp.status
      = some 405 ∧
    ((buildRouteMiddlewares m rc (routeHandler rc.methods u rc.path)).1 r st).trace
      = st.trace ∧
    ((buildRouteMiddlewares m rc (routeHandler rc.methods u rc.path)).1 r st).forwardedPath
      = st.forwardedPath ∧
    lookupA ((buildRouteMiddlewares m rc
        (routeHandler rc.methods u rc.path)).1 r st).limClients r.remoteAddr
      = some (prunedAt st r (secondsToDuration rl.window) ++ [r.now]) ∧
    ((buildRouteMiddlewares m rc (routeHandler rc.methods u rc.path)).1 r st).logs
      = st.logs ++
        [.warn (str "Method not allowed: " ++ r.method ++ str " " ++ r.path),
         .info (r.remoteAddr ++ str " " ++ r.method ++ str " " ++ r.path
           ++ str " " ++ natStr 405)] := by
  have hbuild : (buildRouteMiddlewares m rc (routeHandler rc.methods u rc.path)).1
      = AuthMiddleware (.apikey ⟨headerGet ac.config (str "header"),
          headerGet ac.config (str "key")⟩)
        (RateLimitMiddleware ⟨rl.limit, secondsToDuration rl.window⟩
          (LoggingMiddleware (routeHandler rc.methods u rc.path))) := by
    rw [buildRouteMiddlewares, hmw]
    simp only [List.foldl, buildStep, hpl, hpr, hpa, hrl, hac, hat]
    simp +decide []
  rw [hbuild]
  have hauth : (Authenticator.apikey ⟨headerGet ac.config (str "header"),
      headerGet ac.config (str "key")⟩).Authenticate r = true := by
    simp [Authenticator.Authenticate, APIKeyAuthenticator.Authenticate, hkey]
  simp only [AuthMiddleware]
  rw [if_neg (by rw [hauth]; simp)]
  simp only [prunedAt] at hcount
  simp only [RateLimitMiddleware]
  rw [if_neg (not_le.mpr hcount)]
  simp only [LoggingMiddleware, routeHandler]
  rw [if_pos (by rw [hmeth]; simp)]
  simp only [prunedAt, httpError, setRespHeader, writeHeader, logWarn, logInfo,
    lookupA_assocSet]
  simp [hst, lookupA_assocSet]

/-- Claim C4, witness: a `PUT` to a `GET`-only route with valid API key
and an empty limiter window is rejected with `405` after the rate
limiter has counted the attempt; the proxy is not invoked. -/
theorem c4_witness :
    ((buildRouteMiddlewares c4mgr c4rc
        (routeHandler c4rc.methods c4url c4rc.path)).1 c4req initState).resp.status
      = some 405 ∧
    ((buildRouteMiddlewares c4mgr c4rc
        (routeHandler c4rc.methods c4url c4rc.path)).1 c4req initState).trace = [] ∧
    lookupA ((buildRouteMiddlewares c4mgr c4rc
        (routeHandler c4rc.methods c4url c4rc.path)).1 c4req initState).limClients
        c4req.remoteAddr
      = some (prunedAt initState c4req (secondsToDuration 1) ++ [c4req.now]) := by
  have h := c4_method_not_allowed_after_middleware c4mgr c4rc ⟨5, 1⟩
    ⟨str "apikey", [(str "header", str "X-API-Key"), (str "key", str "secret")]⟩
    c4url c4req initState rfl rfl rfl rfl rfl rfl rfl (by decide) (by decide)
    (by decide) rfl
  exact ⟨h.1, h.2.1, h.2.2.2.1⟩

/-! ## Claim C5 — prefix stripping before forwarding -/

/-- Claim C5 (confirmed): when the route's terminal handler receives a
request whose method is allowed and whose path is the route prefix
followed by `rest`, the path handed to the proxy capability is `rest`
(= the request path with the prefix stripped from the front), or `"/"`
when the stripped path is empty; the proxy forward is recorded in the
trace. -/
theorem c5_strip_path (methods : List Str) (targetURL : URL) (routePath rest : Str)
    (r : Request) (st : GState) (hm : methods.contains r.method = true)
    (hp : r.path = routePath ++ rest) :
    (routeHandler methods targetURL routePath r st).forwardedPath
      = some (if rest = [] then str "/" else rest) ∧
    (routeHandler methods targetURL routePath r st).trace
      = st.trace ++ [str "proxy"] := by
  have hpre : routePath.isPrefixOf r.path = true := by
    rw [hp]
    exact List.isPrefixOf_iff_prefix.mpr (List.prefix_append routePath rest)
  have hdrop : r.path.drop routePath.length = rest := by
    rw [hp]; exact List.drop_left routePath rest
  simp only [routeHandler]
  rw [if_neg (by rw [hm]; simp), if_pos hpre, hdrop]
  constructor <;> rfl

/-- Claim C5, witness: prefix `/api` with request path `/api/users`
forwards `/users`; a path equal to the prefix forwards `/`. -/
theorem c5_witness :
    (([str "GET"].contains req0.method = true ∧ req0.path = str "/api" ++ str "/users") ∧
      (routeHandler [str "GET"] ⟨str "http", str "localhost:3000"⟩ (str "/api")
          req0 initState).forwardedPath = some (str "/users")) ∧
    (([str "GET"].contains req0.method = true ∧
        (str "/api" : Str) = str "/api" ++ ([] : Str)) ∧
      (routeHandler [str "GET"] ⟨str "http", str "localhost:3000"⟩ (str "/api")
          { req0 with path := str "/api" } initState).forwardedPath
        = some (str "/")) := by
  refine ⟨⟨⟨by decide, by decide⟩, ?_⟩, ⟨⟨by decide, by decide⟩, ?_⟩⟩
  · exact (c5_strip_path [str "GET"] ⟨str "http", str "localhost:3000"⟩
      (str "/api") (str "/users") req0 initState (by decide) (by decide)).1
  · exact (c5_strip_path [str "GET"] ⟨str "http", str "localhost:3000"⟩
      (str "/api") [] { req0 with path := str "/api" } initState
      (by decide) (by decide)).1

/-! ## Claim C10 — stored timestamp sequences never exceed the limit -/

/-- The per-state invariant of claim C10: every client present in the
limiter's map stores at most `limit` timestamps. -/
def LimInv (limit : Int) (st : GState) : Prop :=
  ∀ c l, lookupA st.limClients c = some l → (l.length : Int) ≤ limit

theorem limInv_step (limiter : RateLimiter) (r : Request) (st : GState)
    (h : LimInv limiter.limit st) :
    LimInv limiter.limit (RateLimitMiddleware limiter (fun _ s => s) r st) := by
  intro c l hl
  simp only [RateLimitMiddleware] at hl
  by_cases hc : limiter.limit
      ≤ ((((lookupA st.limClients r.remoteAddr).getD []).filter
        (fun t => r.now - t ≤ limiter.window)).length : Int)
  · rw [if_pos hc] at hl
    rw [limClients_httpError] at hl
    exact h c l hl
  · rw [if_neg hc] at hl
    simp only [lookupA_assocSet] at hl
    by_cases hck : c = r.remoteAddr
    · rw [if_pos hck] at hl
      have hlen := not_le.mp hc
      obtain rfl : (((lookupA st.limClients r.remoteAddr).getD []).filter
          (fun t => r.now - t ≤ limiter.window)) ++ [r.now] = l := by
        exact Option.some.inj hl
      simp only [List.length_append, List.length_cons, List.length_nil]
      push_cast
      push_cast at hlen
      omega
    · rw [if_neg hck] at hl
      exact h c l hl

theorem limInv_fold (limiter : RateLimiter) (reqs : List Request) :
    ∀ st0, LimInv limiter.limit st0 →
      LimInv limiter.limit (reqs.foldl
        (fun st r => RateLimitMiddleware limiter (fun _ s => s) r st) st0) := by
  induction reqs with
  | nil => intro st0 h0; exact h0
  | cons r rest ih =>
    intro st0 h0
    simp only [List.foldl]
    exact ih _ (limInv_step limiter r st0 h0)

/-- Claim C10 (confirmed): starting from the empty client map, after any
finite sequence of rate-limit step invocations every client present in
the limiter's map stores a timestamp sequence of length at most the
configured limit — a timestamp is appended only when the pruned count is
strictly below the limit, and rejected attempts leave the map
unchanged. -/
theorem c10_limiter_bound (limiter : RateLimiter) (reqs : List Request)
    (c : Str) (l : List Int)
    (hl : lookupA (runRL limiter reqs).limClients c = some l) :
    (l.length : Int) ≤ limiter.limit := by
  suffices h : LimInv limiter.limit (runRL limiter reqs) from h c l hl
  have base : LimInv limiter.limit initState := by
    intro c' l' h'
    simp [initState, lookupA] at h'
  rw [runRL]
  exact limInv_fold limiter reqs initState base

/-- Claim C10, witness: after one admitted request, the client's stored
sequence has length 1 ≤ limit 1. -/
theorem c10_witness :
    lookupA (runRL ⟨1, 10⟩ [req0]).limClients (str "1.2.3.4:555") = some [0] ∧
    ((([(0 : Int)] : List Int).length : Int) ≤ (1 : Int)) :=
  ⟨by decide, c10_limiter_bound ⟨1, 10⟩ [req0] (str "1.2.3.4:555") [0] (by decide)⟩

/-! ## Claim C6 — CORS plugin -/

/-- The three CORS response headers the plugin sets for an allowed origin. -/
def corsHeaders (p : CORSPlugin) (st : GState) (origin : Str) : GState :=
  setRespHeader (setRespHeader (setRespHeader st (str "Access-Control-Allow-Origin") origin)
    (str "Access-Control-Allow-Methods") (List.intercalate (str ", ") p.allowedMethods))
    (str "Access-Control-Allow-Headers") (List.intercalate (str ", ") p.allowedHeaders)

/-- Claim C6 (confirmed): with no `Origin` header the request passes
through unchanged; with an origin outside the allowed set (exact match
or `*`) the plugin logs and still passes the request to the wrapped
handler with no CORS headers set; with an allowed origin the three CORS
response headers are set, an `OPTIONS` request is answered `200` without
invoking the wrapped handler, and any other method continues to the
wrapped handler. -/
theorem c6_cors (p : CORSPlugin) (next : Handler) (r : Request) (st : GState) :
    (headerGet r.headers (str "Origin") = [] →
      p.ProcessRequest next r st = next r st) ∧
    (headerGet r.headers (str "Origin") ≠ [] →
      p.allowedOrigins.any
        (fun a => a = str "*" ∨ a = headerGet r.headers (str "Origin")) = false →
      p.ProcessRequest next r st
        = next r (logWarn st
            (str "CORS: Origin not allowed: " ++ headerGet r.headers (str "Origin")))) ∧
    (headerGet r.headers (str "Origin") ≠ [] →
      p.allowedOrigins.any
        (fun a => a = str "*" ∨ a = headerGet r.headers (str "Origin")) = true →
      r.method = str "OPTIONS" →
      p.ProcessRequest next r st
        = writeHeader (corsHeaders p st (headerGet r.headers (str "Origin"))) 200) ∧
    (headerGet r.headers (str "Origin") ≠ [] →
      p.allowedOrigins.any
        (fun a => a = str "*" ∨ a = headerGet r.headers (str "Origin")) = true →
      r.method ≠ str "OPTIONS" →
      p.ProcessRequest next r st
        = next r (corsHeaders p st (headerGet r.headers (str "Origin")))) := by
  refine ⟨fun h => ?_, fun h1 h2 => ?_, fun h1 h2 h3 => ?_, fun h1 h2 h3 => ?_⟩
  · simp [CORSPlugin.ProcessRequest, h]
  · simp only [CORSPlugin.ProcessRequest]
    rw [if_neg h1, if_pos (by rw [h2]; simp)]
  · simp only [CORSPlugin.ProcessRequest, corsHeaders]
    rw [if_neg h1, if_neg (by rw [h2]; simp), if_pos h3]
  · simp only [CORSPlugin.ProcessRequest, corsHeaders]
    rw [if_neg h1, if_neg (by rw [h2]; simp), if_neg h3]

/-- The default CORS plugin configuration (`NewCORSPlugin`). -/
def corsP : CORSPlugin :=
  { allowedOrigins := [str "*"]
    allowedMethods := [str "GET", str "POST", str "PUT", str "DELETE", str "OPTIONS"]
    allowedHeaders := [str "Content-Type", str "Authorization"] }

/-- A preflight request carrying an `Origin` header. -/
def reqCors : Request :=
  { req0 with method := str "OPTIONS",
              headers := [(str "Origin", str "http://example.com")] }

/-- Claim C6, witness: the default plugin answers a permitted preflight
`OPTIONS` request with `200` and the three CORS headers, without
invoking the wrapped handler. -/
theorem c6_witness :
    (headerGet reqCors.headers (str "Origin") ≠ [] ∧
      corsP.allowedOrigins.any
        (fun a => a = str "*" ∨ a = headerGet reqCors.headers (str "Origin")) = true ∧
      reqCors.method = str "OPTIONS") ∧
    corsP.ProcessRequest termH reqCors initState
      = writeHeader (corsHeaders corsP initState
          (headerGet reqCors.headers (str "Origin"))) 200 :=
  ⟨⟨by decide, by decide, rfl⟩,
    (c6_cors corsP termH reqCors initState).2.2.1 (by decide) (by decide) rfl⟩

/-! ## Claim C8 — API-key authenticator -/

/-- Claim C8, counterexample: the claim says a request missing the
configured header always fails authentication, but with a configured key
equal to the empty string, a request carrying no headers at all (so the
header is absent) authenticates successfully, because `Header.Get`
returns the empty string for a missing header. -/
theorem c8_counterexample :
    lookupA req0.headers (str "X-API-Key") = none ∧
    APIKeyAuthenticator.Authenticate ⟨str "X-API-Key", []⟩ req0 = true :=
  ⟨rfl, rfl⟩

/-- Claim C8 as amended: `Authenticate` returns true exactly when the
value `Header.Get` reports for the configured header equals the
configured key; since a missing header reads as the empty string, a
request missing the header fails whenever the configured key is
nonempty (and any request whose header value differs from the key
fails). -/
theorem c8_amended_apikey (a : APIKeyAuthenticator) (r : Request) :
    (a.Authenticate r = true ↔ headerGet r.headers a.header = a.key) ∧
    (a.key ≠ [] → lookupA r.headers a.header = none → a.Authenticate r = false) := by
  constructor
  · simp [APIKeyAuthenticator.Authenticate]
  · intro hk hl
    simp [APIKeyAuthenticator.Authenticate, headerGet, hl]
    exact hk

/-- Claim C8, witness: a request without the `X-API-Key` header is
rejected when the configured key is the nonempty `"k"`. -/
theorem c8_witness :
    (str "k" ≠ ([] : Str) ∧ lookupA req0.headers (str "X-API-Key") = none) ∧
    APIKeyAuthenticator.Authenticate ⟨str "X-API-Key", str "k"⟩ req0 = false :=
  ⟨⟨by decide, rfl⟩, (c8_amended_apikey ⟨str "X-API-Key", str "k"⟩ req0).2 (by decide) rfl⟩

/-! ## Claim C7 — basic-credential authenticator -/

/-- Claim C7 (confirmed): the basic authenticator accepts exactly the
requests whose `Authorization` header is `"Basic "` followed by a valid
base64 payload that splits at its first colon into the configured
username and password (exact, case-sensitive comparison). Every other
shape — missing header, wrong scheme marker, base64 decode failure,
colon-free payload — yields `false`; the embedded function is total, so
no input can make it crash. -/
theorem c7_basic_auth_iff (a : BasicAuthenticator) (r : Request) :
    a.Authenticate r = true ↔
    ∃ b64 payload, headerGet r.headers (str "Authorization") = basicTag ++ b64 ∧
      base64Decode b64 = some payload ∧
      splitN2 payload ':' = [a.username, a.password] := by
  simp only [BasicAuthenticator.Authenticate]
  constructor
  · intro h
    by_cases h0 : headerGet r.headers (str "Authorization") = []
    · rw [if_pos h0] at h
      exact absurd h (by simp)
    · rw [if_neg h0] at h
      by_cases h1 : basicTag.isPrefixOf (headerGet r.headers (str "Authorization")) = true
      · rw [if_neg (by rw [h1]; simp)] at h
        obtain ⟨t, ht⟩ := List.isPrefixOf_iff_prefix.mp h1
        have hdrop : (headerGet r.headers (str "Authorization")).drop basicTag.length = t := by
          rw [← ht]
          exact List.drop_left basicTag t
        rw [hdrop] at h
        cases hb : base64Decode t with
        | none => rw [hb] at h; exact absurd h (by simp)
        | some payload =>
          rw [hb] at h
          have h2 : (match splitN2 payload ':' with
              | [u, p] => decide (u = a.username ∧ p = a.password)
              | _ => false) = true := h
          clear h
          cases hsp : splitN2 payload ':' with
          | nil => rw [hsp] at h2; exact absurd h2 (by simp)
          | cons u rest =>
            cases rest with
            | nil => rw [hsp] at h2; exact absurd h2 (by simp)
            | cons p rest2 =>
              cases rest2 with
              | nil =>
                rw [hsp] at h2
                simp only [decide_eq_true_eq] at h2
                exact ⟨t, payload, ht.symm, hb, by rw [hsp, h2.1, h2.2]⟩
              | cons x xs => rw [hsp] at h2; exact absurd h2 (by simp)
      · rw [if_pos (by simpa using h1)] at h
        exact absurd h (by simp)
  · rintro ⟨b64, payload, hh, hb, hs⟩
    rw [hh]
    have hne : basicTag ++ b64 ≠ [] := by simp [basicTag, str]
    rw [if_neg hne]
    have hpre : basicTag.isPrefixOf (basicTag ++ b64) = true :=
      List.isPrefixOf_iff_prefix.mpr (List.prefix_append basicTag b64)
    rw [if_neg (by rw [hpre]; simp), List.drop_left basicTag b64, hb]
    show (match splitN2 payload ':' with
        | [u, p] => decide (u = a.username ∧ p = a.password)
        | _ => false) = true
    rw [hs]
    simp

/-- A request with a well-formed basic `Authorization` header
(`base64("user:pass") = "dXNlcjpwYXNz"`). -/
def reqBasic : Request :=
  { req0 with headers := [(str "Authorization", str "Basic dXNlcjpwYXNz")] }

/-- Claim C7, witness: credentials `user:pass` matching the configured
values authenticate. -/
theorem c7_witness :
    BasicAuthenticator.Authenticate ⟨str "user", str "pass"⟩ reqBasic = true :=
  (c7_basic_auth_iff ⟨str "user", str "pass"⟩ reqBasic).mpr
    ⟨str "dXNlcjpwYXNz", str "user:pass", rfl, rfl, rfl⟩

/-! ## Claim C9 — missing plugin fails open -/

/-- Claim C9 (confirmed): the plugin adapter resolves the plugin at
request time; when the named plugin is absent it logs an error and
invokes the wrapped handler directly (fails open — the request proceeds
and is never blocked), and when present it invokes the plugin's process
capability with the wrapped handler and the request/response state. -/
theorem c9_plugin_fail_open (m : Manager) (pluginName : Str) (next : Handler)
    (r : Request) (st : GState) :
    (m.GetPlugin pluginName = none →
      (m.Middleware pluginName) next r st
        = next r (logError st (str "Plugin not found: " ++ pluginName))) ∧
    (∀ p, m.GetPlugin pluginName = some p →
      (m.Middleware pluginName) next r st = p.process next r st) := by
  constructor
  · intro h; simp [Manager.Middleware, h]
  · intro p h; simp [Manager.Middleware, h]

/-- Claim C9, witness: with an empty registry, the adapter for name
`cors` logs and falls through to the wrapped handler. -/
theorem c9_witness :
    emptyMgr.GetPlugin (str "cors") = none ∧
    (emptyMgr.Middleware (str "cors")) termH req0 initState
      = termH req0 (logError initState (str "Plugin not found: " ++ str "cors")) :=
  ⟨rfl, (c9_plugin_fail_open emptyMgr (str "cors") termH req0 initState).1 rfl⟩
